import Mathlib

/-!
Shallow embedding of `src/vs/workbench/api/common/extHostChatSessions.ts`
(the `ExtHostChatSessions` extension-host adapter for chat session
providers) and proofs about its bookkeeping:

* provider multiplexing by integer handle (`registerChatSessionItemProvider`,
  `registerChatSessionContentProvider`),
* the composite string keys `handle_id` that correlate
  `$provideChatSessionContent` / `$invokeChatSessionRequestHandler` /
  `$disposeChatSessionContent`,
* DTO conversion in `$provideChatSessionItems` / `$provideChatSessionContent`,
* per-session disposable tracking and dispose ordering.

JavaScript `Map`s are modelled as association lists with `Map.set` /
`Map.get` / `Map.delete` semantics (unique keys, in-place replacement).
Opaque host objects (`DisposableStore`, `CancellationTokenSource`) are
modelled by identifiers allocated from a freshness counter, and the effects
on them (cancel, dispose) are recorded in an event trace, so that ordering
claims become claims about the trace.  Extension-supplied providers are
modelled as Lean functions; cancellation tokens as their identifiers.
-/

namespace ExtHostChatSessions

/-- `Map.get`: the value stored under `k`, or `none`. -/
def mapGet {κ α : Type} [DecidableEq κ] : List (κ × α) → κ → Option α
  | [], _ => none
  | (k0, v0) :: rest, k => if k0 = k then some v0 else mapGet rest k

/-- `Map.set`: replace the entry in place when the key is present, else append. -/
def mapSet {κ α : Type} [DecidableEq κ] : List (κ × α) → κ → α → List (κ × α)
  | [], k, v => [(k, v)]
  | (k0, v0) :: rest, k, v =>
    if k0 = k then (k, v) :: rest else (k0, v0) :: mapSet rest k v

/-- `Map.delete`: remove the entry stored under `k` (keys of a JS `Map` are unique). -/
def mapDelete {κ α : Type} [DecidableEq κ] (m : List (κ × α)) (k : κ) : List (κ × α) :=
  m.filter (fun p => p.1 ≠ k)

/-- A raw `vscode.ChatResponsePart` inside a response turn, before conversion.
The adapter treats it opaquely (it only passes it to
`typeConvert.ChatResponsePart.from`), so an identifier suffices. -/
abbrev RawChatResponsePart := Nat

/-- A serialized chat response part, the result of a successful conversion. -/
abbrev ChatResponsePartDto := Nat

/-- A cancellation token, identified by the object that carries it. -/
abbrev CancellationToken := Nat

/-- `vscode.ChatSessionItem` as consumed by the adapter: it reads `id`,
`label` and `iconPath`.  A falsy `id` is the empty string. -/
structure ChatSessionItem where
  id : String
  label : String
  iconPath : Option String
  deriving DecidableEq, Repr

/-- The serializable `IChatSessionItem` DTO sent to the main thread. -/
structure IChatSessionItem where
  id : String
  label : String
  iconPath : Option String
  deriving DecidableEq, Repr

/-- A turn of a chat session's history: either a `ChatRequestTurn` (the
`instanceof` branch of `$provideChatSessionContent`) or any other turn,
which the code treats as a `ChatResponseTurn2` carrying response parts. -/
inductive ChatTurn where
  | request (prompt : String)
  | response (response : List RawChatResponsePart)
  deriving DecidableEq, Repr

/-- `vscode.ChatSession` as consumed by the adapter: its history and the
presence of the two optional callbacks. -/
structure ChatSession where
  history : List ChatTurn
  activeResponseCallback : Bool
  requestHandler : Bool
  deriving DecidableEq, Repr

/-- One entry of the serialized session history DTO. -/
inductive ChatHistoryItemDto where
  | request (prompt : String)
  | response (parts : List ChatResponsePartDto)
  deriving DecidableEq, Repr

/-- The `ChatSessionDto` returned by `$provideChatSessionContent`. -/
structure ChatSessionDto where
  id : String
  hasActiveResponseCallback : Bool
  hasRequestHandler : Bool
  history : List ChatHistoryItemDto
  deriving DecidableEq, Repr

/-- The `IChatAgentResult` returned by `$invokeChatSessionRequestHandler`
(always the empty object `{}` in this code). -/
structure IChatAgentResult where
  deriving DecidableEq, Repr

/-- An entry of `_chatSessionItemProviders`: the provider (a function from
the cancellation token it is given to the nullable list of session items it
produces), its extension, and its `DisposableStore`'s identifier. -/
structure ChatSessionItemProviderEntry where
  provider : CancellationToken → Option (List ChatSessionItem)
  extensionId : String
  storeId : Nat

/-- An entry of `_chatSessionContentProviders`. -/
structure ChatSessionContentProviderEntry where
  provider : String → CancellationToken → ChatSession
  extensionId : String
  storeId : Nat

/-- An entry of `_extHostChatSessions`: the `ExtHostChatSession` wrapper's
session, its extension, the identifier of its `sessionDisposables` store,
the identifiers held inside that store, and the identifier of its
`disposeCts` cancellation token source. -/
structure ExtHostChatSessionEntry where
  session : ChatSession
  extensionId : String
  storeId : Nat
  storeContents : List Nat
  ctsId : Nat
  deriving DecidableEq, Repr

/-- Observable effects of the adapter, in the order they happen. -/
inductive Event where
  | logError (msg : String)
  | logWarn (msg : String)
  | itemProviderInvoked (handle : Nat) (token : CancellationToken)
  | contentProviderInvoked (handle : Nat) (id : String) (token : CancellationToken)
  | activeResponseCallbackInvoked (key : String) (ctsId : Nat)
  | requestHandlerInvoked (key : String) (storeId : Nat) (token : CancellationToken)
  | cancelCts (ctsId : Nat)
  | disposeStore (storeId : Nat)
  | sessionMapDelete (key : String)
  deriving DecidableEq, Repr

/-- The mutable fields of the `ExtHostChatSessions` class.  `sessionHandlePool`
is the class-static `_sessionHandlePool`; `nextResourceId` is the allocator that
stands in for JavaScript `new` giving a fresh `DisposableStore` /
`CancellationTokenSource` object. -/
structure State where
  chatSessionItemProviders : List (Nat × ChatSessionItemProviderEntry)
  chatSessionContentProviders : List (Nat × ChatSessionContentProviderEntry)
  nextChatSessionItemProviderHandle : Nat
  nextChatSessionContentProviderHandle : Nat
  sessionMap : List (String × ChatSessionItem)
  extHostChatSessions : List (String × ExtHostChatSessionEntry)
  sessionHandlePool : Nat
  nextResourceId : Nat

/-- The state right after the constructor ran. -/
def initialState : State :=
  { chatSessionItemProviders := []
    chatSessionContentProviders := []
    nextChatSessionItemProviderHandle := 0
    nextChatSessionContentProviderHandle := 0
    sessionMap := []
    extHostChatSessions := []
    sessionHandlePool := 0
    nextResourceId := 0 }

/-- The composite key `` `${handle}_${id}` `` under which
`$provideChatSessionContent` stores a session and under which
`$invokeChatSessionRequestHandler` / `$disposeChatSessionContent` look it up. -/
def compositeKey (handle : Nat) (id : String) : String :=
  toString handle ++ "_" ++ id

/-- `registerChatSessionItemProvider`: take the next item-provider handle,
increment the counter, create a `DisposableStore` and store the entry under
the handle.  Returns the handle together with the new state. -/
def registerChatSessionItemProvider (st : State) (extensionId : String)
    (provider : CancellationToken → Option (List ChatSessionItem)) : Nat × State :=
  let handle := st.nextChatSessionItemProviderHandle
  let storeId := st.nextResourceId
  (handle,
    { st with
      nextChatSessionItemProviderHandle := handle + 1
      nextResourceId := storeId + 1
      chatSessionItemProviders :=
        mapSet st.chatSessionItemProviders handle
          ⟨provider, extensionId, storeId⟩ })

/-- The `dispose` closure returned by `registerChatSessionItemProvider`:
delete the handle's entry (the store disposal and the proxy unregistration
have no effect on this state). -/
def disposeChatSessionItemProviderRegistration (st : State) (handle : Nat) : State :=
  { st with chatSessionItemProviders := mapDelete st.chatSessionItemProviders handle }

/-- `registerChatSessionContentProvider`, analogously. -/
def registerChatSessionContentProvider (st : State) (extensionId : String)
    (provider : String → CancellationToken → ChatSession) : Nat × State :=
  let handle := st.nextChatSessionContentProviderHandle
  let storeId := st.nextResourceId
  (handle,
    { st with
      nextChatSessionContentProviderHandle := handle + 1
      nextResourceId := storeId + 1
      chatSessionContentProviders :=
        mapSet st.chatSessionContentProviders handle
          ⟨provider, extensionId, storeId⟩ })

/-- The `Disposable` returned by `registerChatSessionContentProvider`. -/
def disposeChatSessionContentProviderRegistration (st : State) (handle : Nat) : State :=
  { st with chatSessionContentProviders := mapDelete st.chatSessionContentProviders handle }

/-- The DTO `$provideChatSessionItems` pushes for a session item. -/
def chatSessionItemToDto (sc : ChatSessionItem) : IChatSessionItem :=
  ⟨sc.id, sc.label, sc.iconPath⟩

/-- The `for (const sessionContent of sessions)` loop of
`$provideChatSessionItems`: items with a truthy `id` are stored in
`_sessionMap` under their `id` and pushed onto the response; others are
skipped.  Returns the response together with the updated `_sessionMap`. -/
def processSessionItems :
    List ChatSessionItem → List (String × ChatSessionItem) →
      List IChatSessionItem × List (String × ChatSessionItem)
  | [], m => ([], m)
  | sc :: rest, m =>
    if sc.id ≠ "" then
      let res := processSessionItems rest (mapSet m sc.id sc)
      (chatSessionItemToDto sc :: res.1, res.2)
    else
      processSessionItems rest m

/-- `$provideChatSessionItems(handle, token)`. -/
def provideChatSessionItems (st : State) (handle : Nat) (token : CancellationToken) :
    List IChatSessionItem × State × List Event :=
  match mapGet st.chatSessionItemProviders handle with
  | none =>
    ([], st, [Event.logError ("No provider registered for handle " ++ toString handle)])
  | some entry =>
    match entry.provider token with
    | none => ([], st, [Event.itemProviderInvoked handle token])
    | some sessions =>
      let res := processSessionItems sessions st.sessionMap
      (res.1, { st with sessionMap := res.2 }, [Event.itemProviderInvoked handle token])

/-- `coalesce` from `base/common/arrays` (its source is not part of the
excerpt).  Modelled from the spec: it drops the `undefined` results of the
conversions, keeping the defined ones in order. -/
def coalesce {α : Type} (l : List (Option α)) : List α :=
  l.filterMap id

/-- The `history.map` body of `$provideChatSessionContent`: a
`ChatRequestTurn` becomes `{ type: 'request', prompt }`; every other turn
becomes `{ type: 'response', parts }` with the coalesced conversions.  The
converter `conv` stands for `typeConvert.ChatResponsePart.from`
(external to the excerpt, so kept abstract). -/
def chatTurnToDto (conv : RawChatResponsePart → Option ChatResponsePartDto) :
    ChatTurn → ChatHistoryItemDto
  | ChatTurn.request prompt => ChatHistoryItemDto.request prompt
  | ChatTurn.response parts => ChatHistoryItemDto.response (coalesce (parts.map conv))

/-- The `ChatSessionDto` literal returned by `$provideChatSessionContent`. -/
def mkChatSessionDto (conv : RawChatResponsePart → Option ChatResponsePartDto)
    (sessionId : Nat) (session : ChatSession) : ChatSessionDto :=
  { id := toString sessionId
    hasActiveResponseCallback := session.activeResponseCallback
    hasRequestHandler := session.requestHandler
    history := session.history.map (chatTurnToDto conv) }

/-- `$provideChatSessionContent(handle, id, token)`.  On an unknown handle it
throws (`Except.error`) having touched nothing.  Otherwise it asks the
provider for the session, creates a fresh `sessionDisposables` store, takes a
session id from the static pool, adds a fresh `CancellationTokenSource` to the
store, stores the entry under the composite key, fires the
`activeResponseCallback` when present (with the new source's token), and
returns the DTO. -/
def provideChatSessionContent (st : State)
    (conv : RawChatResponsePart → Option ChatResponsePartDto)
    (handle : Nat) (id : String) (token : CancellationToken) :
    Except String ChatSessionDto × State × List Event :=
  match mapGet st.chatSessionContentProviders handle with
  | none => (Except.error ("No provider for handle " ++ toString handle), st, [])
  | some pentry =>
    let session := pentry.provider id token
    let storeId := st.nextResourceId
    let sessionId := st.sessionHandlePool
    let ctsId := storeId + 1
    let key := compositeKey handle id
    let entry : ExtHostChatSessionEntry :=
      ⟨session, pentry.extensionId, storeId, [ctsId], ctsId⟩
    (Except.ok (mkChatSessionDto conv sessionId session),
      { st with
        sessionHandlePool := sessionId + 1
        nextResourceId := storeId + 2
        extHostChatSessions := mapSet st.extHostChatSessions key entry },
      Event.contentProviderInvoked handle id token ::
        (if session.activeResponseCallback then
          [Event.activeResponseCallbackInvoked key ctsId]
        else []))

/-- `$disposeChatSessionContent(providerHandle, sessionId)`: on a missing
composite key, warn and return; otherwise cancel the entry's `disposeCts`,
dispose its `sessionDisposables`, and delete the entry. -/
def disposeChatSessionContent (st : State) (providerHandle : Nat) (sessionId : String) :
    State × List Event :=
  let key := compositeKey providerHandle sessionId
  match mapGet st.extHostChatSessions key with
  | none => (st, [Event.logWarn ("No chat session found for ID: " ++ key)])
  | some entry =>
    ({ st with extHostChatSessions := mapDelete st.extHostChatSessions key },
      [Event.cancelCts entry.ctsId, Event.disposeStore entry.storeId,
        Event.sessionMapDelete key])

/-- `$invokeChatSessionRequestHandler(handle, id, ...)`: look the session up
under the composite key; when it is missing or has no `requestHandler`,
return `{}` silently, otherwise run the handler on a request stream built
from the entry and return `{}`. -/
def invokeChatSessionRequestHandler (st : State) (handle : Nat) (id : String)
    (token : CancellationToken) : IChatAgentResult × State × List Event :=
  let key := compositeKey handle id
  match mapGet st.extHostChatSessions key with
  | none => (⟨⟩, st, [])
  | some entry =>
    if entry.session.requestHandler then
      (⟨⟩, st, [Event.requestHandlerInvoked key entry.storeId token])
    else
      (⟨⟩, st, [])

/-! ### Association-list lemmas (JS `Map` semantics) -/

theorem mapGet_mapSet_self {κ α : Type} [DecidableEq κ] (m : List (κ × α)) (k : κ) (v : α) :
    mapGet (mapSet m k v) k = some v := by
  induction m with
  | nil => simp [mapGet, mapSet]
  | cons p rest ih =>
    obtain ⟨k0, v0⟩ := p
    by_cases h : k0 = k <;> simp [mapGet, mapSet, h, ih]

theorem mapGet_mapSet_ne {κ α : Type} [DecidableEq κ] (m : List (κ × α)) (k k' : κ) (v : α)
    (h : k ≠ k') : mapGet (mapSet m k v) k' = mapGet m k' := by
  induction m with
  | nil => simp [mapGet, mapSet, h]
  | cons p rest ih =>
    obtain ⟨k0, v0⟩ := p
    by_cases h0 : k0 = k <;> by_cases h1 : k0 = k' <;>
      simp_all [mapGet, mapSet]

theorem mapGet_mapDelete_self {κ α : Type} [DecidableEq κ] (m : List (κ × α)) (k : κ) :
    mapGet (mapDelete m k) k = none := by
  induction m with
  | nil => rfl
  | cons p rest ih =>
    obtain ⟨k0, v0⟩ := p
    by_cases h : k0 = k
    · simpa [mapDelete, h] using ih
    · simpa [mapDelete, mapGet, h] using ih

theorem mapGet_eq_none_iff {κ α : Type} [DecidableEq κ] (m : List (κ × α)) (k : κ) :
    mapGet m k = none ↔ k ∉ m.map Prod.fst := by
  induction m with
  | nil => simp [mapGet]
  | cons p rest ih =>
    obtain ⟨k0, v0⟩ := p
    simp only [List.map_cons, List.mem_cons]
    by_cases h : k0 = k
    · subst h
      simp [mapGet]
    · simp only [mapGet, if_neg h]
      rw [ih]
      constructor
      · intro hk
        rintro (rfl | h')
        · exact h rfl
        · exact hk h'
      · intro hk h'
        exact hk (Or.inr h')

theorem mapSet_eq_append {κ α : Type} [DecidableEq κ] (m : List (κ × α)) (k : κ) (v : α)
    (h : mapGet m k = none) : mapSet m k v = m ++ [(k, v)] := by
  induction m with
  | nil => rfl
  | cons p rest ih =>
    obtain ⟨k0, v0⟩ := p
    by_cases h0 : k0 = k
    · simp [mapGet, h0] at h
    · simp only [mapGet, if_neg h0] at h
      simp [mapSet, h0, ih h]

theorem mem_mapSet {κ α : Type} [DecidableEq κ] {m : List (κ × α)} {k : κ} {v : α}
    {p : κ × α} (h : p ∈ mapSet m k v) : p = (k, v) ∨ p ∈ m := by
  induction m with
  | nil => simpa [mapSet] using h
  | cons q rest ih =>
    obtain ⟨k0, v0⟩ := q
    by_cases h0 : k0 = k
    · simp only [mapSet, if_pos h0, List.mem_cons] at h
      rcases h with h | h
      · exact Or.inl h
      · exact Or.inr (List.mem_cons_of_mem _ h)
    · simp only [mapSet, if_neg h0, List.mem_cons] at h
      rcases h with h | h
      · exact Or.inr (by simp [h])
      · rcases ih h with h' | h'
        · exact Or.inl h'
        · exact Or.inr (List.mem_cons_of_mem _ h')

theorem pairwise_mapSet {κ α : Type} [DecidableEq κ] {R : κ × α → κ × α → Prop}
    {m : List (κ × α)} {k : κ} {v : α} (hm : m.Pairwise R)
    (h1 : ∀ p ∈ m, R p (k, v)) (h2 : ∀ p ∈ m, R (k, v) p) :
    (mapSet m k v).Pairwise R := by
  induction m with
  | nil => simp [mapSet]
  | cons q rest ih =>
    obtain ⟨k0, v0⟩ := q
    obtain ⟨hq, hrest⟩ := List.pairwise_cons.mp hm
    by_cases h0 : k0 = k
    · simp only [mapSet, if_pos h0]
      exact List.pairwise_cons.mpr
        ⟨fun p hp => h2 p (List.mem_cons_of_mem _ hp), hrest⟩
    · simp only [mapSet, if_neg h0]
      refine List.pairwise_cons.mpr ⟨fun p hp => ?_, ?_⟩
      · rcases mem_mapSet hp with h | h
        · exact h ▸ h1 (k0, v0) (List.mem_cons_self _ _)
        · exact hq p h
      · exact ih hrest (fun p hp => h1 p (List.mem_cons_of_mem _ hp))
          (fun p hp => h2 p (List.mem_cons_of_mem _ hp))

/-! ### Lemmas about the `$provideChatSessionItems` loop -/

theorem processSessionItems_fst (l : List ChatSessionItem)
    (m : List (String × ChatSessionItem)) :
    (processSessionItems l m).1
      = (l.filter (fun sc => sc.id ≠ "")).map chatSessionItemToDto := by
  induction l generalizing m with
  | nil => rfl
  | cons sc rest ih =>
    by_cases h : sc.id = "" <;> simp [processSessionItems, h, ih]

theorem processSessionItems_get_of_forall_ne (l : List ChatSessionItem)
    (m : List (String × ChatSessionItem)) (k : String) (h : ∀ sc ∈ l, sc.id ≠ k) :
    mapGet (processSessionItems l m).2 k = mapGet m k := by
  induction l generalizing m with
  | nil => rfl
  | cons sc rest ih =>
    have hsc : sc.id ≠ k := h sc (List.mem_cons_self _ _)
    have hrest : ∀ x ∈ rest, x.id ≠ k := fun x hx => h x (List.mem_cons_of_mem _ hx)
    by_cases hid : sc.id = ""
    · simpa [processSessionItems, hid] using ih (m := m) hrest
    · simp only [processSessionItems, if_pos (by exact hid)]
      rw [ih (m := mapSet m sc.id sc) hrest]
      exact mapGet_mapSet_ne _ _ _ _ hsc

theorem processSessionItems_get_empty (l : List ChatSessionItem)
    (m : List (String × ChatSessionItem)) :
    mapGet (processSessionItems l m).2 "" = mapGet m "" := by
  induction l generalizing m with
  | nil => rfl
  | cons sc rest ih =>
    by_cases hid : sc.id = ""
    · simpa [processSessionItems, hid] using ih (m := m)
    · simp only [processSessionItems, if_pos (by exact hid)]
      rw [ih (m := mapSet m sc.id sc)]
      exact mapGet_mapSet_ne _ _ _ _ hid

theorem processSessionItems_get_mem (l : List ChatSessionItem)
    (m : List (String × ChatSessionItem)) (k : String) (hk : k ≠ "")
    (h : ∃ sc ∈ l, sc.id = k) :
    ∃ sc', sc' ∈ l ∧ sc'.id = k ∧
      mapGet (processSessionItems l m).2 k = some sc' := by
  induction l generalizing m with
  | nil => simp at h
  | cons sc rest ih =>
    by_cases hr : ∃ x ∈ rest, x.id = k
    · by_cases hid : sc.id = ""
      · obtain ⟨sc', hmem, hidk, hget⟩ := ih (m := m) hr
        exact ⟨sc', List.mem_cons_of_mem _ hmem, hidk, by
          simpa [processSessionItems, hid] using hget⟩
      · obtain ⟨sc', hmem, hidk, hget⟩ := ih (m := mapSet m sc.id sc) hr
        exact ⟨sc', List.mem_cons_of_mem _ hmem, hidk, by
          simpa [processSessionItems, hid] using hget⟩
    · have hsck : sc.id = k := by
        rcases h with ⟨x, hx, hxk⟩
        rcases List.mem_cons.mp hx with rfl | hx'
        · exact hxk
        · exact absurd ⟨x, hx', hxk⟩ hr
      have hid : sc.id ≠ "" := hsck ▸ hk
      refine ⟨sc, List.mem_cons_self _ _, hsck, ?_⟩
      push_neg at hr
      simp only [processSessionItems, if_pos (by exact hid)]
      rw [processSessionItems_get_of_forall_ne rest (mapSet m sc.id sc) k hr]
      rw [hsck]
      exact mapGet_mapSet_self _ _ _

theorem coalesce_map_eq_filterMap {α β : Type} (f : α → Option β) (l : List α) :
    coalesce (l.map f) = l.filterMap f := by
  induction l with
  | nil => rfl
  | cons a rest ih =>
    cases hfa : f a with
    | none =>
      simp only [List.map_cons, coalesce, List.filterMap_cons, hfa, id]
      exact ih
    | some b =>
      simp only [List.map_cons, coalesce, List.filterMap_cons, hfa, id]
      exact congrArg (fun l => b :: l) ih

/-! ### Characterization of a successful `$provideChatSessionContent` -/

theorem provideChatSessionContent_of_mapGet (st : State)
    (conv : RawChatResponsePart → Option ChatResponsePartDto)
    (handle : Nat) (id : String) (token : CancellationToken)
    (pentry : ChatSessionContentProviderEntry)
    (hp : mapGet st.chatSessionContentProviders handle = some pentry) :
    provideChatSessionContent st conv handle id token =
      (Except.ok (mkChatSessionDto conv st.sessionHandlePool (pentry.provider id token)),
        { st with
          sessionHandlePool := st.sessionHandlePool + 1
          nextResourceId := st.nextResourceId + 2
          extHostChatSessions :=
            mapSet st.extHostChatSessions (compositeKey handle id)
              ⟨pentry.provider id token, pentry.extensionId, st.nextResourceId,
                [st.nextResourceId + 1], st.nextResourceId + 1⟩ },
        Event.contentProviderInvoked handle id token ::
          (if (pentry.provider id token).activeResponseCallback then
            [Event.activeResponseCallbackInvoked (compositeKey handle id)
              (st.nextResourceId + 1)]
          else [])) := by
  simp [provideChatSessionContent, hp]

/-! ### Handle and resource invariants -/

/-- The handle bookkeeping invariant of a provider map: the live handles are
pairwise distinct and all below the counter. -/
def providerHandlesOk {α : Type} (m : List (Nat × α)) (next : Nat) : Prop :=
  (m.map Prod.fst).Nodup ∧ ∀ k ∈ m.map Prod.fst, k < next

theorem providerHandlesOk_fresh_not_mem {α : Type} {m : List (Nat × α)} {next : Nat}
    (h : providerHandlesOk m next) : next ∉ m.map Prod.fst :=
  fun hmem => lt_irrefl next (h.2 next hmem)

theorem providerHandlesOk_mapSet_fresh {α : Type} {m : List (Nat × α)} {next : Nat} (v : α)
    (h : providerHandlesOk m next) : providerHandlesOk (mapSet m next v) (next + 1) := by
  have hnone : mapGet m next = none :=
    (mapGet_eq_none_iff m next).mpr (providerHandlesOk_fresh_not_mem h)
  rw [mapSet_eq_append m next v hnone]
  constructor
  · rw [List.map_append, List.nodup_append]
    refine ⟨h.1, List.nodup_singleton _, ?_⟩
    intro x hx hx'
    simp only [List.map_cons, List.map_nil, List.mem_singleton] at hx'
    exact providerHandlesOk_fresh_not_mem h (hx' ▸ hx)
  · intro k hk
    rw [List.map_append] at hk
    rcases List.mem_append.mp hk with hk | hk
    · exact Nat.lt_succ_of_lt (h.2 k hk)
    · simp only [List.map_cons, List.map_nil, List.mem_singleton] at hk
      exact hk ▸ Nat.lt_succ_self _

theorem providerHandlesOk_mapDelete {α : Type} {m : List (Nat × α)} {next : Nat} (k : Nat)
    (h : providerHandlesOk m next) : providerHandlesOk (mapDelete m k) next := by
  have hsub : List.Sublist ((mapDelete m k).map Prod.fst) (m.map Prod.fst) :=
    List.Sublist.map Prod.fst (List.filter_sublist m)
  exact ⟨h.1.sublist hsub, fun x hx => h.2 x (hsub.subset hx)⟩

/-- Two session entries share none of their disposable resources. -/
def resourcesDisjoint (e1 e2 : ExtHostChatSessionEntry) : Prop :=
  e1.storeId ≠ e2.storeId ∧ e1.ctsId ≠ e2.ctsId ∧
    e1.storeId ≠ e2.ctsId ∧ e1.ctsId ≠ e2.storeId

/-- Resource bookkeeping invariant of `_extHostChatSessions`: every entry's
store and token source were allocated (their identifiers are below the
allocator), an entry's store is not its token source, the token source sits
inside the store, and no two entries share a store or a token source. -/
def sessionResourcesOk (st : State) : Prop :=
  (∀ p ∈ st.extHostChatSessions,
    p.2.storeId < st.nextResourceId ∧ p.2.ctsId < st.nextResourceId ∧
      p.2.storeId ≠ p.2.ctsId ∧ p.2.ctsId ∈ p.2.storeContents) ∧
  st.extHostChatSessions.Pairwise (fun p q => resourcesDisjoint p.2 q.2)

/-! ### Concrete fixtures used by the witnesses -/

def exItems : List ChatSessionItem :=
  [⟨"s1", "Session One", some "icon1"⟩, ⟨"", "Draft", none⟩,
    ⟨"s2", "Session Two", none⟩]

def exItemProviderFn : CancellationToken → Option (List ChatSessionItem) :=
  fun _ => some exItems

def exSession : ChatSession :=
  { history := [ChatTurn.request "hello", ChatTurn.response [2, 3, 4]]
    activeResponseCallback := true
    requestHandler := true }

def exContentProviderFn : String → CancellationToken → ChatSession :=
  fun _ _ => exSession

def exConv : RawChatResponsePart → Option ChatResponsePartDto :=
  fun n => if n % 2 = 0 then some (n * 10) else none

/-- A state with one item provider (handle 0) and one content provider
(handle 0) registered. -/
def st0 : State :=
  (registerChatSessionContentProvider
    (registerChatSessionItemProvider initialState "extA" exItemProviderFn).2
    "extB" exContentProviderFn).2

/-- `st0` after `$provideChatSessionContent(0, "abc", 11)` succeeded. -/
def st1 : State :=
  (provideChatSessionContent st0 exConv 0 "abc" 11).2.1

example : mapGet st0.chatSessionContentProviders 0 = some ⟨exContentProviderFn, "extB", 1⟩ :=
  rfl

example : mapGet st0.chatSessionItemProviders 0 = some ⟨exItemProviderFn, "extA", 0⟩ :=
  rfl

example : mapGet st1.extHostChatSessions (compositeKey 0 "abc")
    = some ⟨exSession, "extB", 2, [3], 3⟩ := by decide

example : mapGet st0.chatSessionItemProviders 5 = none := rfl

/-! ### The claims -/

/-- Claim C3: for a known session, `$disposeChatSessionContent` first cancels the
session's cancellation token source, then disposes the session's disposable
store, and finally removes the session's entry from the map (the event trace
lists exactly these three effects in this order); afterwards no entry for the
composite key remains in the map. -/
theorem claim3_dispose_order (st : State) (providerHandle : Nat) (sessionId : String)
    (e : ExtHostChatSessionEntry)
    (h : mapGet st.extHostChatSessions (compositeKey providerHandle sessionId) = some e) :
    disposeChatSessionContent st providerHandle sessionId =
      ({ st with extHostChatSessions :=
          mapDelete st.extHostChatSessions (compositeKey providerHandle sessionId) },
        [Event.cancelCts e.ctsId, Event.disposeStore e.storeId,
          Event.sessionMapDelete (compositeKey providerHandle sessionId)]) ∧
    mapGet (disposeChatSessionContent st providerHandle sessionId).1.extHostChatSessions
      (compositeKey providerHandle sessionId) = none := by
  constructor
  · simp [disposeChatSessionContent, h]
  · simp [disposeChatSessionContent, h, mapGet_mapDelete_self]

/-- Witness for C3 at a concrete state with one live session. -/
theorem claim3_dispose_order_witness :
    mapGet st1.extHostChatSessions (compositeKey 0 "abc")
        = some ⟨exSession, "extB", 2, [3], 3⟩ ∧
      (disposeChatSessionContent st1 0 "abc" =
        ({ st1 with extHostChatSessions :=
            mapDelete st1.extHostChatSessions (compositeKey 0 "abc") },
          [Event.cancelCts 3, Event.disposeStore 2,
            Event.sessionMapDelete (compositeKey 0 "abc")]) ∧
        mapGet (disposeChatSessionContent st1 0 "abc").1.extHostChatSessions
          (compositeKey 0 "abc") = none) :=
  ⟨by decide, claim3_dispose_order st1 0 "abc" ⟨exSession, "extB", 2, [3], 3⟩ (by decide)⟩

/-- Claim C8: for every handle with no registered chat session item provider,
`$provideChatSessionItems` logs an error and returns the empty list, leaving
the state unchanged. -/
theorem claim8_unknown_item_handle (st : State) (handle : Nat) (token : CancellationToken)
    (h : mapGet st.chatSessionItemProviders handle = none) :
    provideChatSessionItems st handle token =
      ([], st,
        [Event.logError ("No provider registered for handle " ++ toString handle)]) := by
  simp [provideChatSessionItems, h]

/-- Witness for C8 at handle 5, which has no provider in `st0`. -/
theorem claim8_unknown_item_handle_witness :
    mapGet st0.chatSessionItemProviders 5 = none ∧
      provideChatSessionItems st0 5 7 =
        ([], st0,
          [Event.logError ("No provider registered for handle " ++ toString 5)]) :=
  ⟨rfl, claim8_unknown_item_handle st0 5 7 rfl⟩

/-- Claim C9: for every handle with no registered chat session content provider,
`$provideChatSessionContent` throws (`Except.error`) and leaves all state
unchanged, including the session map. -/
theorem claim9_unknown_content_handle (st : State)
    (conv : RawChatResponsePart → Option ChatResponsePartDto)
    (handle : Nat) (id : String) (token : CancellationToken)
    (h : mapGet st.chatSessionContentProviders handle = none) :
    provideChatSessionContent st conv handle id token =
      (Except.error ("No provider for handle " ++ toString handle), st, []) := by
  simp [provideChatSessionContent, h]

/-- Witness for C9 at handle 9, which has no content provider in `st0`. -/
theorem claim9_unknown_content_handle_witness :
    mapGet st0.chatSessionContentProviders 9 = none ∧
      provideChatSessionContent st0 exConv 9 "abc" 3 =
        (Except.error ("No provider for handle " ++ toString 9), st0, []) :=
  ⟨rfl, claim9_unknown_content_handle st0 exConv 9 "abc" 3 rfl⟩

/-- Claim C10: for every pair whose composite key is not in the session map,
`$disposeChatSessionContent` returns normally and leaves all state unchanged:
it only warns, cancels no token source, disposes no store and keeps the map. -/
theorem claim10_dispose_unknown_key (st : State) (providerHandle : Nat) (sessionId : String)
    (h : mapGet st.extHostChatSessions (compositeKey providerHandle sessionId) = none) :
    disposeChatSessionContent st providerHandle sessionId =
      (st, [Event.logWarn ("No chat session found for ID: "
        ++ compositeKey providerHandle sessionId)]) := by
  simp [disposeChatSessionContent, h]

/-- Witness for C10 at a key absent from `st0`'s session map. -/
theorem claim10_dispose_unknown_key_witness :
    mapGet st0.extHostChatSessions (compositeKey 3 "nope") = none ∧
      disposeChatSessionContent st0 3 "nope" =
        (st0, [Event.logWarn ("No chat session found for ID: "
          ++ compositeKey 3 "nope")]) :=
  ⟨rfl, claim10_dispose_unknown_key st0 3 "nope" rfl⟩

/-- Claim C1: request/response correlation by composite key.  A session created
by `$provideChatSessionContent(handle, id, token)` is stored in the session
map under `handle_id`, and `$invokeChatSessionRequestHandler(handle, id, ...)`
and `$disposeChatSessionContent(handle, id)` each operate on exactly the entry
stored under that same composite key: the invoked request handler and the
cancelled/disposed resources are the ones of that entry. -/
theorem claim1_composite_key_correlation (st : State)
    (conv : RawChatResponsePart → Option ChatResponsePartDto)
    (handle : Nat) (id : String) (token : CancellationToken)
    (pentry : ChatSessionContentProviderEntry)
    (dto : Except String ChatSessionDto) (st' : State) (ev : List Event)
    (hp : mapGet st.chatSessionContentProviders handle = some pentry)
    (hrun : provideChatSessionContent st conv handle id token = (dto, st', ev)) :
    ∃ e : ExtHostChatSessionEntry,
      mapGet st'.extHostChatSessions (compositeKey handle id) = some e ∧
      (∀ token2 : CancellationToken,
        invokeChatSessionRequestHandler st' handle id token2 =
          (⟨⟩, st',
            if e.session.requestHandler then
              [Event.requestHandlerInvoked (compositeKey handle id) e.storeId token2]
            else [])) ∧
      disposeChatSessionContent st' handle id =
        ({ st' with extHostChatSessions :=
            mapDelete st'.extHostChatSessions (compositeKey handle id) },
          [Event.cancelCts e.ctsId, Event.disposeStore e.storeId,
            Event.sessionMapDelete (compositeKey handle id)]) := by
  rw [provideChatSessionContent_of_mapGet st conv handle id token pentry hp] at hrun
  have hst : ({ st with
      sessionHandlePool := st.sessionHandlePool + 1
      nextResourceId := st.nextResourceId + 2
      extHostChatSessions :=
        mapSet st.extHostChatSessions (compositeKey handle id)
          ⟨pentry.provider id token, pentry.extensionId, st.nextResourceId,
            [st.nextResourceId + 1], st.nextResourceId + 1⟩ } : State) = st' :=
    congrArg (fun p => p.2.1) hrun
  subst hst
  refine ⟨⟨pentry.provider id token, pentry.extensionId, st.nextResourceId,
    [st.nextResourceId + 1], st.nextResourceId + 1⟩, ?_, ?_, ?_⟩
  · exact mapGet_mapSet_self _ _ _
  · intro token2
    by_cases hrh : (pentry.provider id token).requestHandler <;>
      simp [invokeChatSessionRequestHandler, mapGet_mapSet_self, hrh]
  · simp [disposeChatSessionContent, mapGet_mapSet_self]

/-- Witness for C1: the session stored by `$provideChatSessionContent(0, "abc")`
on `st0` is found, invoked and disposed under the key `compositeKey 0 "abc"`. -/
theorem claim1_composite_key_correlation_witness :
    mapGet st0.chatSessionContentProviders 0 = some ⟨exContentProviderFn, "extB", 1⟩ ∧
      ∃ e : ExtHostChatSessionEntry,
        mapGet st1.extHostChatSessions (compositeKey 0 "abc") = some e ∧
        (∀ token2 : CancellationToken,
          invokeChatSessionRequestHandler st1 0 "abc" token2 =
            (⟨⟩, st1,
              if e.session.requestHandler then
                [Event.requestHandlerInvoked (compositeKey 0 "abc") e.storeId token2]
              else [])) ∧
        disposeChatSessionContent st1 0 "abc" =
          ({ st1 with extHostChatSessions :=
              mapDelete st1.extHostChatSessions (compositeKey 0 "abc") },
            [Event.cancelCts e.ctsId, Event.disposeStore e.storeId,
              Event.sessionMapDelete (compositeKey 0 "abc")]) :=
  ⟨rfl, claim1_composite_key_correlation st0 exConv 0 "abc" 11
    ⟨exContentProviderFn, "extB", 1⟩
    (provideChatSessionContent st0 exConv 0 "abc" 11).1 st1
    (provideChatSessionContent st0 exConv 0 "abc" 11).2.2 rfl rfl⟩

/-- Claim C4: `$provideChatSessionItems` maps extension-supplied session items
to serializable DTOs: the result lists, in provider order, a DTO with the
`id`, `label` and `iconPath` of each item whose `id` is truthy, each such item
is recorded in the session map under its `id`, and items with a falsy `id`
appear neither in the result nor in the session map. -/
theorem claim4_item_dto_mapping (st : State) (handle : Nat) (token : CancellationToken)
    (entry : ChatSessionItemProviderEntry) (sessions : List ChatSessionItem)
    (h1 : mapGet st.chatSessionItemProviders handle = some entry)
    (h2 : entry.provider token = some sessions) :
    (provideChatSessionItems st handle token).1
      = (sessions.filter (fun sc => sc.id ≠ "")).map
          (fun sc => IChatSessionItem.mk sc.id sc.label sc.iconPath) ∧
    (∀ sc ∈ sessions, sc.id ≠ "" →
      ∃ sc', sc' ∈ sessions ∧ sc'.id = sc.id ∧
        mapGet (provideChatSessionItems st handle token).2.1.sessionMap sc.id = some sc') ∧
    mapGet (provideChatSessionItems st handle token).2.1.sessionMap ""
      = mapGet st.sessionMap "" := by
  have hrun : provideChatSessionItems st handle token
      = ((processSessionItems sessions st.sessionMap).1,
          { st with sessionMap := (processSessionItems sessions st.sessionMap).2 },
          [Event.itemProviderInvoked handle token]) := by
    simp [provideChatSessionItems, h1, h2]
  refine ⟨?_, ?_, ?_⟩
  · rw [hrun]
    exact processSessionItems_fst sessions st.sessionMap
  · intro sc hmem hid
    obtain ⟨sc', hmem', hid', hget'⟩ :=
      processSessionItems_get_mem sessions st.sessionMap sc.id hid ⟨sc, hmem, rfl⟩
    refine ⟨sc', hmem', hid', ?_⟩
    rw [hrun]
    exact hget'
  · rw [hrun]
    exact processSessionItems_get_empty sessions st.sessionMap

/-- Witness for C4 on `st0`, whose item provider returns two items with truthy
ids and one with a falsy id. -/
theorem claim4_item_dto_mapping_witness :
    mapGet st0.chatSessionItemProviders 0 = some ⟨exItemProviderFn, "extA", 0⟩ ∧
      (⟨exItemProviderFn, "extA", (0 : Nat)⟩ :
        ChatSessionItemProviderEntry).provider 7 = some exItems ∧
      ((provideChatSessionItems st0 0 7).1
        = (exItems.filter (fun sc => sc.id ≠ "")).map
            (fun sc => IChatSessionItem.mk sc.id sc.label sc.iconPath) ∧
        (∀ sc ∈ exItems, sc.id ≠ "" →
          ∃ sc', sc' ∈ exItems ∧ sc'.id = sc.id ∧
            mapGet (provideChatSessionItems st0 0 7).2.1.sessionMap sc.id = some sc') ∧
        mapGet (provideChatSessionItems st0 0 7).2.1.sessionMap ""
          = mapGet st0.sessionMap "") :=
  ⟨rfl, rfl, claim4_item_dto_mapping st0 0 7 ⟨exItemProviderFn, "extA", 0⟩
    exItems rfl rfl⟩

/-- Claim C5: `$provideChatSessionContent` maps the provider-supplied session to
a serializable DTO: each `ChatRequestTurn` of the history becomes a request
entry carrying its prompt, every other turn becomes a response entry whose
parts are the converted response parts with undefined conversions dropped
(`List.filterMap conv`), and the two flags are true exactly when the session
has the corresponding callback/handler. -/
theorem claim5_content_dto_mapping (st : State)
    (conv : RawChatResponsePart → Option ChatResponsePartDto)
    (handle : Nat) (id : String) (token : CancellationToken)
    (pentry : ChatSessionContentProviderEntry)
    (hp : mapGet st.chatSessionContentProviders handle = some pentry) :
    ∃ dto : ChatSessionDto,
      (provideChatSessionContent st conv handle id token).1 = Except.ok dto ∧
      (dto.hasActiveResponseCallback = true ↔
        (pentry.provider id token).activeResponseCallback = true) ∧
      (dto.hasRequestHandler = true ↔
        (pentry.provider id token).requestHandler = true) ∧
      dto.history = (pentry.provider id token).history.map (fun t =>
        match t with
        | ChatTurn.request p => ChatHistoryItemDto.request p
        | ChatTurn.response parts =>
          ChatHistoryItemDto.response (parts.filterMap conv)) := by
  refine ⟨mkChatSessionDto conv st.sessionHandlePool (pentry.provider id token),
    ?_, Iff.rfl, Iff.rfl, ?_⟩
  · rw [provideChatSessionContent_of_mapGet st conv handle id token pentry hp]
  · refine List.map_congr_left ?_
    intro t _
    cases t with
    | request p => rfl
    | response parts =>
      simp only [chatTurnToDto, coalesce_map_eq_filterMap]

/-- Witness for C5 on `st0`: the example session has one request turn and one
response turn whose parts `[2, 3, 4]` convert to `[20, 40]` under `exConv`. -/
theorem claim5_content_dto_mapping_witness :
    mapGet st0.chatSessionContentProviders 0 = some ⟨exContentProviderFn, "extB", 1⟩ ∧
      ∃ dto : ChatSessionDto,
        (provideChatSessionContent st0 exConv 0 "abc" 11).1 = Except.ok dto ∧
        (dto.hasActiveResponseCallback = true ↔
          ((⟨exContentProviderFn, "extB", 1⟩ :
            ChatSessionContentProviderEntry).provider "abc" 11).activeResponseCallback
              = true) ∧
        (dto.hasRequestHandler = true ↔
          ((⟨exContentProviderFn, "extB", 1⟩ :
            ChatSessionContentProviderEntry).provider "abc" 11).requestHandler = true) ∧
        dto.history = ((⟨exContentProviderFn, "extB", 1⟩ :
          ChatSessionContentProviderEntry).provider "abc" 11).history.map (fun t =>
            match t with
            | ChatTurn.request p => ChatHistoryItemDto.request p
            | ChatTurn.response parts =>
              ChatHistoryItemDto.response (parts.filterMap exConv)) :=
  ⟨rfl, claim5_content_dto_mapping st0 exConv 0 "abc" 11
    ⟨exContentProviderFn, "extB", 1⟩ rfl⟩

/-- Claim C6: cancellation tokens are forwarded verbatim.  The token passed to
`$provideChatSessionItems` is the one the item provider receives (the
invocation event carries it and the result is what the provider produces for
it), and likewise for `$provideChatSessionContent` and the content provider. -/
theorem claim6_token_forwarding (st : State)
    (conv : RawChatResponsePart → Option ChatResponsePartDto)
    (hi hc : Nat) (id : String) (token : CancellationToken)
    (entry : ChatSessionItemProviderEntry) (pentry : ChatSessionContentProviderEntry)
    (h1 : mapGet st.chatSessionItemProviders hi = some entry)
    (h2 : mapGet st.chatSessionContentProviders hc = some pentry) :
    (provideChatSessionItems st hi token).2.2 = [Event.itemProviderInvoked hi token] ∧
    (∀ sessions, entry.provider token = some sessions →
      (provideChatSessionItems st hi token).1
        = (processSessionItems sessions st.sessionMap).1) ∧
    (entry.provider token = none → (provideChatSessionItems st hi token).1 = []) ∧
    ((provideChatSessionContent st conv hc id token).2.2).head?
      = some (Event.contentProviderInvoked hc id token) ∧
    (provideChatSessionContent st conv hc id token).1
      = Except.ok (mkChatSessionDto conv st.sessionHandlePool
          (pentry.provider id token)) := by
  refine ⟨?_, ?_, ?_, ?_, ?_⟩
  · cases hs : entry.provider token <;> simp [provideChatSessionItems, h1, hs]
  · intro sessions hs
    simp [provideChatSessionItems, h1, hs]
  · intro hs
    simp [provideChatSessionItems, h1, hs]
  · rw [provideChatSessionContent_of_mapGet st conv hc id token pentry h2]
    rfl
  · rw [provideChatSessionContent_of_mapGet st conv hc id token pentry h2]

/-- Witness for C6 on `st0` with token 7 for items and token 11 for content. -/
theorem claim6_token_forwarding_witness :
    mapGet st0.chatSessionItemProviders 0 = some ⟨exItemProviderFn, "extA", 0⟩ ∧
      mapGet st0.chatSessionContentProviders 0 = some ⟨exContentProviderFn, "extB", 1⟩ ∧
      ((provideChatSessionItems st0 0 7).2.2 = [Event.itemProviderInvoked 0 7] ∧
        (∀ sessions, (⟨exItemProviderFn, "extA", 0⟩ :
            ChatSessionItemProviderEntry).provider 7 = some sessions →
          (provideChatSessionItems st0 0 7).1
            = (processSessionItems sessions st0.sessionMap).1) ∧
        ((⟨exItemProviderFn, "extA", 0⟩ :
            ChatSessionItemProviderEntry).provider 7 = none →
          (provideChatSessionItems st0 0 7).1 = []) ∧
        ((provideChatSessionContent st0 exConv 0 "abc" 7).2.2).head?
          = some (Event.contentProviderInvoked 0 "abc" 7) ∧
        (provideChatSessionContent st0 exConv 0 "abc" 7).1
          = Except.ok (mkChatSessionDto exConv st0.sessionHandlePool
              ((⟨exContentProviderFn, "extB", 1⟩ :
                ChatSessionContentProviderEntry).provider "abc" 11))) :=
  ⟨rfl, rfl, claim6_token_forwarding st0 exConv 0 0 "abc" 7
    ⟨exItemProviderFn, "extA", 0⟩ ⟨exContentProviderFn, "extB", 1⟩ rfl rfl⟩

/-- Claim C2: provider registrations are multiplexed by integer handle.  Each
register call hands out the current value of its own counter and increments
it, the fresh handle collides with no live registration, the provider is then
stored under that handle, distinctness of live handles is preserved by
registration and by the returned disposables, and `$provideChatSessionItems`
invokes exactly the provider registered under the handle it is given. -/
theorem claim2_handle_multiplexing (st : State) (extId extId2 : String)
    (itemP : CancellationToken → Option (List ChatSessionItem))
    (contentP : String → CancellationToken → ChatSession)
    (hItem : providerHandlesOk st.chatSessionItemProviders
      st.nextChatSessionItemProviderHandle)
    (hContent : providerHandlesOk st.chatSessionContentProviders
      st.nextChatSessionContentProviderHandle) :
    ((registerChatSessionItemProvider st extId itemP).1
        = st.nextChatSessionItemProviderHandle ∧
      (registerChatSessionItemProvider st extId itemP).2.nextChatSessionItemProviderHandle
        = st.nextChatSessionItemProviderHandle + 1 ∧
      (registerChatSessionItemProvider st extId itemP).1
        ∉ st.chatSessionItemProviders.map Prod.fst ∧
      mapGet (registerChatSessionItemProvider st extId itemP).2.chatSessionItemProviders
          (registerChatSessionItemProvider st extId itemP).1
        = some ⟨itemP, extId, st.nextResourceId⟩ ∧
      providerHandlesOk
        (registerChatSessionItemProvider st extId itemP).2.chatSessionItemProviders
        (registerChatSessionItemProvider st extId itemP).2.nextChatSessionItemProviderHandle ∧
      ∀ h : Nat, providerHandlesOk
        (disposeChatSessionItemProviderRegistration st h).chatSessionItemProviders
        (disposeChatSessionItemProviderRegistration st h).nextChatSessionItemProviderHandle) ∧
    ((registerChatSessionContentProvider st extId2 contentP).1
        = st.nextChatSessionContentProviderHandle ∧
      (registerChatSessionContentProvider st extId2
          contentP).2.nextChatSessionContentProviderHandle
        = st.nextChatSessionContentProviderHandle + 1 ∧
      (registerChatSessionContentProvider st extId2 contentP).1
        ∉ st.chatSessionContentProviders.map Prod.fst ∧
      mapGet (registerChatSessionContentProvider st extId2
            contentP).2.chatSessionContentProviders
          (registerChatSessionContentProvider st extId2 contentP).1
        = some ⟨contentP, extId2, st.nextResourceId⟩ ∧
      providerHandlesOk
        (registerChatSessionContentProvider st extId2 contentP).2.chatSessionContentProviders
        (registerChatSessionContentProvider st extId2
          contentP).2.nextChatSessionContentProviderHandle ∧
      ∀ h : Nat, providerHandlesOk
        (disposeChatSessionContentProviderRegistration st h).chatSessionContentProviders
        (disposeChatSessionContentProviderRegistration
          st h).nextChatSessionContentProviderHandle) ∧
    (∀ (handle : Nat) (token : CancellationToken) (entry : ChatSessionItemProviderEntry),
      mapGet st.chatSessionItemProviders handle = some entry →
      (provideChatSessionItems st handle token).2.2
          = [Event.itemProviderInvoked handle token] ∧
      (∀ sessions, entry.provider token = some sessions →
        (provideChatSessionItems st handle token).1
          = (processSessionItems sessions st.sessionMap).1) ∧
      (entry.provider token = none →
        (provideChatSessionItems st handle token).1 = [])) := by
  refine ⟨⟨rfl, rfl, providerHandlesOk_fresh_not_mem hItem,
      mapGet_mapSet_self _ _ _, providerHandlesOk_mapSet_fresh _ hItem,
      fun h => providerHandlesOk_mapDelete h hItem⟩,
    ⟨rfl, rfl, providerHandlesOk_fresh_not_mem hContent,
      mapGet_mapSet_self _ _ _, providerHandlesOk_mapSet_fresh _ hContent,
      fun h => providerHandlesOk_mapDelete h hContent⟩,
    ?_⟩
  intro handle token entry h1
  refine ⟨?_, ?_, ?_⟩
  · cases hs : entry.provider token <;> simp [provideChatSessionItems, h1, hs]
  · intro sessions hs
    simp [provideChatSessionItems, h1, hs]
  · intro hs
    simp [provideChatSessionItems, h1, hs]

/-- Witness for C2 on `st0`, registering one more provider of each kind. -/
theorem claim2_handle_multiplexing_witness :
    providerHandlesOk st0.chatSessionItemProviders
        st0.nextChatSessionItemProviderHandle ∧
      providerHandlesOk st0.chatSessionContentProviders
        st0.nextChatSessionContentProviderHandle ∧
      (((registerChatSessionItemProvider st0 "extC" exItemProviderFn).1
          = st0.nextChatSessionItemProviderHandle ∧
        (registerChatSessionItemProvider st0 "extC"
            exItemProviderFn).2.nextChatSessionItemProviderHandle
          = st0.nextChatSessionItemProviderHandle + 1 ∧
        (registerChatSessionItemProvider st0 "extC" exItemProviderFn).1
          ∉ st0.chatSessionItemProviders.map Prod.fst ∧
        mapGet (registerChatSessionItemProvider st0 "extC"
              exItemProviderFn).2.chatSessionItemProviders
            (registerChatSessionItemProvider st0 "extC" exItemProviderFn).1
          = some ⟨exItemProviderFn, "extC", st0.nextResourceId⟩ ∧
        providerHandlesOk
          (registerChatSessionItemProvider st0 "extC"
            exItemProviderFn).2.chatSessionItemProviders
          (registerChatSessionItemProvider st0 "extC"
            exItemProviderFn).2.nextChatSessionItemProviderHandle ∧
        ∀ h : Nat, providerHandlesOk
          (disposeChatSessionItemProviderRegistration st0 h).chatSessionItemProviders
          (disposeChatSessionItemProviderRegistration
            st0 h).nextChatSessionItemProviderHandle) ∧
      ((registerChatSessionContentProvider st0 "extD" exContentProviderFn).1
          = st0.nextChatSessionContentProviderHandle ∧
        (registerChatSessionContentProvider st0 "extD"
            exContentProviderFn).2.nextChatSessionContentProviderHandle
          = st0.nextChatSessionContentProviderHandle + 1 ∧
        (registerChatSessionContentProvider st0 "extD" exContentProviderFn).1
          ∉ st0.chatSessionContentProviders.map Prod.fst ∧
        mapGet (registerChatSessionContentProvider st0 "extD"
              exContentProviderFn).2.chatSessionContentProviders
            (registerChatSessionContentProvider st0 "extD" exContentProviderFn).1
          = some ⟨exContentProviderFn, "extD", st0.nextResourceId⟩ ∧
        providerHandlesOk
          (registerChatSessionContentProvider st0 "extD"
            exContentProviderFn).2.chatSessionContentProviders
          (registerChatSessionContentProvider st0 "extD"
            exContentProviderFn).2.nextChatSessionContentProviderHandle ∧
        ∀ h : Nat, providerHandlesOk
          (disposeChatSessionContentProviderRegistration
            st0 h).chatSessionContentProviders
          (disposeChatSessionContentProviderRegistration
            st0 h).nextChatSessionContentProviderHandle) ∧
      (∀ (handle : Nat) (token : CancellationToken) (entry : ChatSessionItemProviderEntry),
        mapGet st0.chatSessionItemProviders handle = some entry →
        (provideChatSessionItems st0 handle token).2.2
            = [Event.itemProviderInvoked handle token] ∧
        (∀ sessions, entry.provider token = some sessions →
          (provideChatSessionItems st0 handle token).1
            = (processSessionItems sessions st0.sessionMap).1) ∧
        (entry.provider token = none →
          (provideChatSessionItems st0 handle token).1 = []))) :=
  ⟨⟨by decide, by decide⟩, ⟨by decide, by decide⟩,
    claim2_handle_multiplexing st0 "extC" "extD" exItemProviderFn exContentProviderFn
      ⟨by decide, by decide⟩ ⟨by decide, by decide⟩⟩

/-- Claim C7: per-session disposable resources are tracked.  Every successful
`$provideChatSessionContent` call allocates a fresh `DisposableStore` and a
fresh `CancellationTokenSource` added to that store, keeps both with the newly
stored entry, shares them with no other entry, and the invariant that every
entry of the session map owns its own store and token source is preserved. -/
theorem claim7_resource_tracking (st : State)
    (conv : RawChatResponsePart → Option ChatResponsePartDto)
    (handle : Nat) (id : String) (token : CancellationToken)
    (pentry : ChatSessionContentProviderEntry)
    (hp : mapGet st.chatSessionContentProviders handle = some pentry)
    (hok : sessionResourcesOk st) :
    ∃ e : ExtHostChatSessionEntry,
      mapGet (provideChatSessionContent st conv handle id token).2.1.extHostChatSessions
          (compositeKey handle id) = some e ∧
      e.storeId = st.nextResourceId ∧
      e.ctsId = st.nextResourceId + 1 ∧
      e.ctsId ∈ e.storeContents ∧
      (∀ p ∈ st.extHostChatSessions, resourcesDisjoint e p.2) ∧
      sessionResourcesOk (provideChatSessionContent st conv handle id token).2.1 := by
  rw [provideChatSessionContent_of_mapGet st conv handle id token pentry hp]
  refine ⟨⟨pentry.provider id token, pentry.extensionId, st.nextResourceId,
      [st.nextResourceId + 1], st.nextResourceId + 1⟩,
    mapGet_mapSet_self _ _ _, rfl, rfl, List.mem_singleton.mpr rfl, ?_, ?_, ?_⟩
  · intro p hp'
    obtain ⟨h1, h2, h3, h4⟩ := hok.1 p hp'
    refine ⟨?_, ?_, ?_, ?_⟩ <;> dsimp only <;> omega
  · intro p hp'
    rcases mem_mapSet hp' with rfl | hmem
    · exact ⟨by dsimp only; omega, by dsimp only; omega, by dsimp only; omega,
        by dsimp only; exact List.mem_singleton.mpr rfl⟩
    · obtain ⟨h1, h2, h3, h4⟩ := hok.1 p hmem
      exact ⟨by dsimp only; omega, by dsimp only; omega, h3, h4⟩
  · refine pairwise_mapSet hok.2 ?_ ?_
    · intro p hp'
      obtain ⟨h1, h2, h3, h4⟩ := hok.1 p hp'
      refine ⟨?_, ?_, ?_, ?_⟩ <;> dsimp only <;> omega
    · intro p hp'
      obtain ⟨h1, h2, h3, h4⟩ := hok.1 p hp'
      refine ⟨?_, ?_, ?_, ?_⟩ <;> dsimp only <;> omega

theorem sessionResourcesOk_st0 : sessionResourcesOk st0 := by
  constructor
  · intro p hp
    simp [st0, registerChatSessionItemProvider, registerChatSessionContentProvider,
      initialState] at hp
  · simp [st0, registerChatSessionItemProvider, registerChatSessionContentProvider,
      initialState]

/-- Witness for C7 on `st0`, whose session map is empty and whose allocator
stands at 2; the new entry owns store 2 and token source 3. -/
theorem claim7_resource_tracking_witness :
    mapGet st0.chatSessionContentProviders 0 = some ⟨exContentProviderFn, "extB", 1⟩ ∧
      sessionResourcesOk st0 ∧
      ∃ e : ExtHostChatSessionEntry,
        mapGet st1.extHostChatSessions (compositeKey 0 "abc") = some e ∧
        e.storeId = st0.nextResourceId ∧
        e.ctsId = st0.nextResourceId + 1 ∧
        e.ctsId ∈ e.storeContents ∧
        (∀ p ∈ st0.extHostChatSessions, resourcesDisjoint e p.2) ∧
        sessionResourcesOk st1 :=
  ⟨rfl, sessionResourcesOk_st0,
    claim7_resource_tracking st0 exConv 0 "abc" 11 ⟨exContentProviderFn, "extB", 1⟩
      rfl sessionResourcesOk_st0⟩

end ExtHostChatSessions
